import Mathlib

/-!
Verification of `crates/collab_ui/src/collab_ui.rs` (zed collaboration UI glue).

The file embeds, as executable Lean definitions, the functions of the source
file that the specification talks about:

* `format_timestamp` — timestamp rendering (same day / yesterday / date),
  built on the `time` crate's `OffsetDateTime`.  Instants are modelled as
  seconds since the Unix epoch (`Int`), offsets as seconds east of UTC.
  Calendar dates are modelled as days since the epoch, with the standard
  civil-calendar conversions (the same proleptic Gregorian calendar the
  `time` crate implements).  The `time` crate documents that
  `OffsetDateTime::to_offset` panics when the converted local date falls
  outside the supported range (year -9999 ..= 9999, default features), so
  `to_offset` here returns `Option`, `none` modelling the panic.
* the three global toggle actions (`toggle_screen_sharing`, `toggle_mute`,
  `toggle_deafen`) — modelled with an explicit effect log recording the
  telemetry events reported, the room operations dispatched, and the tasks
  detached.  The room state transitions themselves are owned by the external
  `call` crate and are not part of this source file; the embedding therefore
  records which external method is invoked rather than its effect.
* `notification_window_options` — pure geometry, modelled over `ℚ`.
* `is_channels_feature_enabled` — boolean glue over the feature-flag service.
-/

/-! ## Calendar arithmetic (proleptic Gregorian, as in the `time` crate)

`days_from_civil` and `civil_from_days` are the standard conversions between
a calendar date and its day number relative to 1970-01-01. -/

/-- Day number (days since 1970-01-01) of the civil date `y-m-d`. -/
def days_from_civil (y m d : Int) : Int :=
  let y' := y - (if m ≤ 2 then 1 else 0)
  let era := y'.fdiv 400
  let yoe := y' - era * 400
  let doy := (153 * (m + (if m > 2 then -3 else 9)) + 2).fdiv 5 + d - 1
  let doe := yoe * 365 + yoe.fdiv 4 - yoe.fdiv 100 + doy
  era * 146097 + doe - 719468

/-- Civil date `(year, month, day)` of a day number (days since 1970-01-01). -/
def civil_from_days (z : Int) : Int × Nat × Nat :=
  let z' := z + 719468
  let era := z'.fdiv 146097
  let doe := z' - era * 146097
  let yoe := (doe - doe.fdiv 1460 + doe.fdiv 36524 - doe.fdiv 146096).fdiv 365
  let y := yoe + era * 400
  let doy := doe - (365 * yoe + yoe.fdiv 4 - yoe.fdiv 100)
  let mp := (5 * doy + 2).fdiv 153
  let d := doy - (153 * mp + 2).fdiv 5 + 1
  let m := mp + (if mp < 10 then 3 else -9)
  (y + (if m ≤ 2 then 1 else 0), m.toNat, d.toNat)

/-- First supported day: -9999-01-01 (`time` crate `Date::MIN`, default features). -/
def MIN_DAY : Int := days_from_civil (-9999) 1 1

/-- Last supported day: 9999-12-31 (`time` crate `Date::MAX`, default features). -/
def MAX_DAY : Int := days_from_civil 9999 12 31

/-- A day number is representable as a `time::Date`. -/
def dateInRange (d : Int) : Prop := MIN_DAY ≤ d ∧ d ≤ MAX_DAY

instance (d : Int) : Decidable (dateInRange d) := by
  unfold dateInRange; infer_instance

/-! ## `OffsetDateTime` -/

/-- `time::OffsetDateTime`: an instant (seconds since the Unix epoch, UTC)
together with the offset (seconds east of UTC) its civil representation uses. -/
structure OffsetDateTime where
  instant : Int
  offset : Int
deriving DecidableEq

/-- Day number of the local calendar date of instant `i` at offset `tz`. -/
def localDay (i tz : Int) : Int := (i + tz).fdiv 86400

/-- Second within the local calendar day (0 ..= 86399). -/
def localSecondOfDay (i tz : Int) : Nat := ((i + tz) % 86400).toNat

/-- Local hour of day (`OffsetDateTime::hour`, 0 ..= 23). -/
def hourOf (i tz : Int) : Nat := localSecondOfDay i tz / 3600

/-- Local minute of hour (`OffsetDateTime::minute`, 0 ..= 59). -/
def minuteOf (i tz : Int) : Nat := localSecondOfDay i tz % 3600 / 60

/-- `OffsetDateTime::to_offset`: same instant, new offset.  The `time` crate
documents a panic when the local date in the new offset is outside the
supported range; `none` models that panic. -/
def to_offset (dt : OffsetDateTime) (tz : Int) : Option OffsetDateTime :=
  if dateInRange (localDay dt.instant tz) then some ⟨dt.instant, tz⟩ else none

/-- `time::Date::next_day`: `none` exactly on `Date::MAX`. -/
def next_day (d : Int) : Option Int :=
  if d = MAX_DAY then none else some (d + 1)

/-- Month number (1 ..= 12) of a day number (`date.month() as u32`). -/
def monthOf (d : Int) : Nat := (civil_from_days d).2.1

/-- Day of month (1 ..= 31) of a day number (`date.day()`). -/
def dayOf (d : Int) : Nat := (civil_from_days d).2.2

/-- Year of a day number (`date.year()`). -/
def yearOf (d : Int) : Int := (civil_from_days d).1

/-- Rust `format!("{:02}", n)` for the small nonnegative values printed here. -/
def twoDigit (n : Nat) : String :=
  if n < 10 then "0" ++ toString n else toString n

/-- `format_timestamp` from `collab_ui.rs`:
convert both datetimes to the local offset, then render same-day timestamps
as `HH:MMam|pm`, the previous calendar day as `yesterday at HH:MMam|pm`, and
anything else as `MM/D/YYYY`.  `none` models the `to_offset` panic. -/
def format_timestamp (timestamp now : OffsetDateTime) (local_timezone : Int) :
    Option String :=
  match to_offset timestamp local_timezone with
  | none => none
  | some ts =>
    match to_offset now local_timezone with
    | none => none
    | some nw =>
      let today := localDay nw.instant nw.offset
      let date := localDay ts.instant ts.offset
      let hour0 := hourOf ts.instant ts.offset
      let hour := if hour0 > 12 then hour0 - 12 else hour0
      let part := if hour0 > 12 then "pm" else "am"
      some (if date = today then
          twoDigit hour ++ ":" ++ twoDigit (minuteOf ts.instant ts.offset) ++ part
        else if next_day date = some today then
          "yesterday at " ++ twoDigit hour ++ ":" ++
            twoDigit (minuteOf ts.instant ts.offset) ++ part
        else
          twoDigit (monthOf date) ++ "/" ++ toString (dayOf date) ++ "/" ++
            toString (yearOf date))

/-! ## Toggle actions

The toggle actions read the globally-held `ActiveCall` and, when a room is
present, call methods on that external room and report telemetry.  The room
state transitions (mute, deafen, screen sharing) are implemented in the
external `call` crate, not in this source file, so the embedding records the
external calls in an explicit effect log: telemetry events reported via
`report_call_event_for_room`, room operations dispatched, and asynchronous
tasks detached (`detach_and_log_err`). -/

/-- The slice of `call::Room` read by this file: identifiers for telemetry
and the two state queries the toggles branch on. -/
structure Room where
  id : Nat
  channel_id : Option Nat
  is_screen_sharing : Bool
  is_muted : Bool
deriving DecidableEq

/-- The globally-held active-call registry: the current room, if any. -/
structure ActiveCall where
  room : Option Room
deriving DecidableEq

/-- A telemetry event as reported by `report_call_event_for_room`. -/
structure CallEvent where
  operation : String
  room_id : Nat
  channel_id : Option Nat
deriving DecidableEq

/-- External `Room` methods invoked by the toggle actions. -/
inductive RoomOp where
  | share_screen
  | unshare_screen
  | mute_toggle
  | deafen_toggle
deriving DecidableEq

/-- Observable effects of one toggle-action dispatch. -/
structure Effects where
  telemetry : List CallEvent
  room_ops : List RoomOp
  tasks_detached : Nat
deriving DecidableEq

/-- No effects: nothing reported, dispatched or spawned. -/
def noEffects : Effects := ⟨[], [], 0⟩

/-- `toggle_screen_sharing`: if a room exists, report
`disable screen share` and call `unshare_screen` when sharing, otherwise
report `enable screen share` and call `share_screen`; either way detach the
resulting task.  Without a room, nothing happens. -/
def toggle_screen_sharing (call : ActiveCall) : ActiveCall × Effects :=
  match call.room with
  | none => (call, noEffects)
  | some room =>
    if room.is_screen_sharing then
      (call, ⟨[⟨"disable screen share", room.id, room.channel_id⟩],
              [RoomOp.unshare_screen], 1⟩)
    else
      (call, ⟨[⟨"enable screen share", room.id, room.channel_id⟩],
              [RoomOp.share_screen], 1⟩)

/-- `toggle_mute`: if a room exists, report `enable microphone` when
currently muted and `disable microphone` otherwise, call
`Room::toggle_mute`, and detach the resulting task (the external call is
modelled as succeeding).  Without a room, nothing happens. -/
def toggle_mute (call : ActiveCall) : ActiveCall × Effects :=
  match call.room with
  | none => (call, noEffects)
  | some room =>
    let operation := if room.is_muted then "enable microphone"
      else "disable microphone"
    (call, ⟨[⟨operation, room.id, room.channel_id⟩], [RoomOp.mute_toggle], 1⟩)

/-- `toggle_deafen`: if a room exists, call `Room::toggle_deafen` and detach
the resulting task (no telemetry).  Without a room, nothing happens. -/
def toggle_deafen (call : ActiveCall) : ActiveCall × Effects :=
  match call.room with
  | none => (call, noEffects)
  | some _ => (call, ⟨[], [RoomOp.deafen_toggle], 1⟩)

/-! ## Notification window placement

`gpui` geometry over exact rationals: `Vector2F`, `RectF` (origin at the
upper-left corner, y growing downward), and the slice of `WindowOptions`
that `notification_window_options` fills in. -/

structure Vector2F where
  x : ℚ
  y : ℚ
deriving DecidableEq

instance : Add Vector2F := ⟨fun a b => ⟨a.x + b.x, a.y + b.y⟩⟩

/-- `gpui::geometry::vector::vec2f`. -/
def vec2f (x y : ℚ) : Vector2F := ⟨x, y⟩

/-- `gpui::geometry::rect::RectF`: origin (upper-left) and size. -/
structure RectF where
  origin : Vector2F
  size : Vector2F
deriving DecidableEq

/-- `RectF::new`. -/
def RectF.new (origin size : Vector2F) : RectF := ⟨origin, size⟩

/-- `RectF::upper_right`: origin displaced by the width. -/
def RectF.upper_right (r : RectF) : Vector2F :=
  ⟨r.origin.x + r.size.x, r.origin.y⟩

/-- The slice of `gpui::platform::Screen` used here. -/
structure Screen where
  content_bounds : RectF
deriving DecidableEq

inductive WindowBounds where
  | Fixed (rect : RectF)
  | Maximized
deriving DecidableEq

inductive WindowKind where
  | Normal
  | PopUp
deriving DecidableEq

/-- The fields of `gpui::platform::WindowOptions` set by
`notification_window_options` (`show_` stands for the Rust field `show`,
which is a Lean keyword). -/
structure WindowOptions where
  bounds : WindowBounds
  titlebar : Option Unit
  center : Bool
  focus : Bool
  show_ : Bool
  kind : WindowKind
  is_movable : Bool
  screen : Option Screen
deriving DecidableEq

/-- `notification_window_options`: a fixed popup rectangle of the given size
anchored near the screen's upper-right corner with 16-pixel padding. -/
def notification_window_options (screen : Screen) (window_size : Vector2F) :
    WindowOptions :=
  let NOTIFICATION_PADDING : ℚ := 16
  let screen_bounds := screen.content_bounds
  { bounds := WindowBounds.Fixed (RectF.new
      (screen_bounds.upper_right +
        vec2f (-NOTIFICATION_PADDING - window_size.x) NOTIFICATION_PADDING)
      window_size)
    titlebar := none
    center := false
    focus := false
    show_ := true
    kind := WindowKind.PopUp
    is_movable := false
    screen := some screen }

/-! ## Feature flags -/

inductive FeatureFlag where
  | ChannelsAlpha
deriving DecidableEq

/-- The slice of the app context read by `is_channels_feature_enabled`:
the staff bit and the feature-flag membership check. -/
structure WindowContext where
  is_staff : Bool
  has_flag : FeatureFlag → Bool

/-- `is_channels_feature_enabled`: staff or `ChannelsAlpha` flag holder. -/
def is_channels_feature_enabled (cx : WindowContext) : Bool :=
  cx.is_staff || cx.has_flag FeatureFlag.ChannelsAlpha

/-! ## Helper lemmas -/

theorem twoDigit_length : ∀ n : Nat, n < 100 → (twoDigit n).length = 2 := by
  decide

theorem hourOf_lt (i tz : Int) : hourOf i tz < 24 := by
  unfold hourOf localSecondOfDay
  have h1 : (i + tz) % 86400 < 86400 := Int.emod_lt_of_pos _ (by norm_num)
  have h2 : 0 ≤ (i + tz) % 86400 := Int.emod_nonneg _ (by norm_num)
  omega

theorem minuteOf_lt (i tz : Int) : minuteOf i tz < 60 := by
  unfold minuteOf localSecondOfDay
  have h1 : (i + tz) % 86400 < 86400 := Int.emod_lt_of_pos _ (by norm_num)
  have h2 : 0 ≤ (i + tz) % 86400 := Int.emod_nonneg _ (by norm_num)
  omega

/-- In-range conversions succeed, and `format_timestamp` reduces to the
three-way branch on the two local calendar dates. -/
theorem format_timestamp_reduce (ts now : OffsetDateTime) (tz : Int)
    (hts : dateInRange (localDay ts.instant tz))
    (hnow : dateInRange (localDay now.instant tz)) :
    format_timestamp ts now tz =
      some (if localDay ts.instant tz = localDay now.instant tz then
          twoDigit (if hourOf ts.instant tz > 12 then hourOf ts.instant tz - 12
            else hourOf ts.instant tz) ++ ":" ++
          twoDigit (minuteOf ts.instant tz) ++
          (if hourOf ts.instant tz > 12 then "pm" else "am")
        else if next_day (localDay ts.instant tz) =
            some (localDay now.instant tz) then
          "yesterday at " ++
          twoDigit (if hourOf ts.instant tz > 12 then hourOf ts.instant tz - 12
            else hourOf ts.instant tz) ++ ":" ++
          twoDigit (minuteOf ts.instant tz) ++
          (if hourOf ts.instant tz > 12 then "pm" else "am")
        else
          twoDigit (monthOf (localDay ts.instant tz)) ++ "/" ++
          toString (dayOf (localDay ts.instant tz)) ++ "/" ++
          toString (yearOf (localDay ts.instant tz))) := by
  unfold format_timestamp to_offset
  rw [if_pos hts, if_pos hnow]

/-! ## Claims -/

/-- C1: for a timestamp on the same local calendar day as `now`,
`format_timestamp` returns exactly the 12-hour clock rendering: a two-digit
hour (hours above 12 reduced by 12), a colon, a two-digit minute, and an
`am`/`pm` suffix, with no date portion. -/
theorem format_timestamp_same_day (ts now : OffsetDateTime) (tz : Int)
    (hts : dateInRange (localDay ts.instant tz))
    (hnow : dateInRange (localDay now.instant tz))
    (hday : localDay ts.instant tz = localDay now.instant tz) :
    format_timestamp ts now tz =
      some (twoDigit (if hourOf ts.instant tz > 12 then hourOf ts.instant tz - 12
              else hourOf ts.instant tz) ++ ":" ++
            twoDigit (minuteOf ts.instant tz) ++
            (if hourOf ts.instant tz > 12 then "pm" else "am")) ∧
    (twoDigit (if hourOf ts.instant tz > 12 then hourOf ts.instant tz - 12
        else hourOf ts.instant tz)).length = 2 ∧
    (twoDigit (minuteOf ts.instant tz)).length = 2 ∧
    ((if hourOf ts.instant tz > 12 then "pm" else "am") = "am" ∨
      (if hourOf ts.instant tz > 12 then "pm" else "am") = "pm") := by
  have h24 := hourOf_lt ts.instant tz
  have h60 := minuteOf_lt ts.instant tz
  refine ⟨?_, ?_, ?_, ?_⟩
  · rw [format_timestamp_reduce ts now tz hts hnow, if_pos hday]
  · apply twoDigit_length
    split <;> omega
  · exact twoDigit_length _ (by omega)
  · by_cases h : hourOf ts.instant tz > 12
    · exact Or.inr (if_pos h)
    · exact Or.inl (if_neg h)

/-- C1 witness: 1970-01-01 14:05 UTC against `now` = 1970-01-01 00:00 UTC,
local timezone UTC. -/
theorem format_timestamp_same_day_witness :
    format_timestamp ⟨50700, 0⟩ ⟨0, 0⟩ 0 =
      some (twoDigit (if hourOf 50700 0 > 12 then hourOf 50700 0 - 12
              else hourOf 50700 0) ++ ":" ++
            twoDigit (minuteOf 50700 0) ++
            (if hourOf 50700 0 > 12 then "pm" else "am")) ∧
    (twoDigit (if hourOf 50700 0 > 12 then hourOf 50700 0 - 12
        else hourOf 50700 0)).length = 2 ∧
    (twoDigit (minuteOf 50700 0)).length = 2 ∧
    ((if hourOf 50700 0 > 12 then "pm" else "am") = "am" ∨
      (if hourOf 50700 0 > 12 then "pm" else "am") = "pm") :=
  format_timestamp_same_day ⟨50700, 0⟩ ⟨0, 0⟩ 0 (by decide) (by decide)
    (by decide)

/-- C2: for a timestamp whose local calendar date is exactly the day before
`now`'s local calendar date, `format_timestamp` returns `yesterday at `
followed by the two-digit hour, a colon, the two-digit minute, and an
`am`/`pm` suffix. -/
theorem format_timestamp_yesterday (ts now : OffsetDateTime) (tz : Int)
    (hts : dateInRange (localDay ts.instant tz))
    (hnow : dateInRange (localDay now.instant tz))
    (hday : localDay ts.instant tz + 1 = localDay now.instant tz) :
    format_timestamp ts now tz =
      some ("yesterday at " ++
            twoDigit (if hourOf ts.instant tz > 12 then hourOf ts.instant tz - 12
              else hourOf ts.instant tz) ++ ":" ++
            twoDigit (minuteOf ts.instant tz) ++
            (if hourOf ts.instant tz > 12 then "pm" else "am")) ∧
    (twoDigit (if hourOf ts.instant tz > 12 then hourOf ts.instant tz - 12
        else hourOf ts.instant tz)).length = 2 ∧
    (twoDigit (minuteOf ts.instant tz)).length = 2 ∧
    ((if hourOf ts.instant tz > 12 then "pm" else "am") = "am" ∨
      (if hourOf ts.instant tz > 12 then "pm" else "am") = "pm") := by
  have h24 := hourOf_lt ts.instant tz
  have hne : localDay ts.instant tz ≠ localDay now.instant tz := by omega
  have hmax : localDay ts.instant tz ≠ MAX_DAY := by
    have := hnow.2
    omega
  have hnext : next_day (localDay ts.instant tz) =
      some (localDay now.instant tz) := by
    unfold next_day
    rw [if_neg hmax]
    exact congrArg some hday
  refine ⟨?_, ?_, ?_, ?_⟩
  · rw [format_timestamp_reduce ts now tz hts hnow, if_neg hne, if_pos hnext]
  · apply twoDigit_length
    split <;> omega
  · exact twoDigit_length _ (minuteOf_lt ts.instant tz |>.trans (by norm_num))
  · by_cases h : hourOf ts.instant tz > 12
    · exact Or.inr (if_pos h)
    · exact Or.inl (if_neg h)

/-- C2 witness: 1969-12-31 10:00 UTC against `now` = 1970-01-01 00:00 UTC,
local timezone UTC. -/
theorem format_timestamp_yesterday_witness :
    format_timestamp ⟨-50400, 0⟩ ⟨0, 0⟩ 0 =
      some ("yesterday at " ++
            twoDigit (if hourOf (-50400) 0 > 12 then hourOf (-50400) 0 - 12
              else hourOf (-50400) 0) ++ ":" ++
            twoDigit (minuteOf (-50400) 0) ++
            (if hourOf (-50400) 0 > 12 then "pm" else "am")) ∧
    (twoDigit (if hourOf (-50400) 0 > 12 then hourOf (-50400) 0 - 12
        else hourOf (-50400) 0)).length = 2 ∧
    (twoDigit (minuteOf (-50400) 0)).length = 2 ∧
    ((if hourOf (-50400) 0 > 12 then "pm" else "am") = "am" ∨
      (if hourOf (-50400) 0 > 12 then "pm" else "am") = "pm") :=
  format_timestamp_yesterday ⟨-50400, 0⟩ ⟨0, 0⟩ 0 (by decide) (by decide)
    (by decide)

/-- Any timestamp whose local day is not `now`'s local day and not the day
immediately before it falls through to the date branch. -/
theorem format_timestamp_date_branch (ts now : OffsetDateTime) (tz : Int)
    (hts : dateInRange (localDay ts.instant tz))
    (hnow : dateInRange (localDay now.instant tz))
    (hne : localDay ts.instant tz ≠ localDay now.instant tz)
    (hne1 : localDay ts.instant tz + 1 ≠ localDay now.instant tz) :
    format_timestamp ts now tz =
      some (twoDigit (monthOf (localDay ts.instant tz)) ++ "/" ++
            toString (dayOf (localDay ts.instant tz)) ++ "/" ++
            toString (yearOf (localDay ts.instant tz))) := by
  have hnext : next_day (localDay ts.instant tz) ≠
      some (localDay now.instant tz) := by
    intro hcontra
    unfold next_day at hcontra
    by_cases hm : localDay ts.instant tz = MAX_DAY
    · rw [if_pos hm] at hcontra
      exact Option.noConfusion hcontra
    · rw [if_neg hm] at hcontra
      exact hne1 (Option.some.inj hcontra)
  rw [format_timestamp_reduce ts now tz hts hnow, if_neg hne, if_neg hnext]

/-- C3: for a timestamp two or more local calendar days before `now`,
`format_timestamp` returns the date rendering: two-digit month, `/`,
day of month, `/`, year — no clock-time portion. -/
theorem format_timestamp_older_date (ts now : OffsetDateTime) (tz : Int)
    (hts : dateInRange (localDay ts.instant tz))
    (hnow : dateInRange (localDay now.instant tz))
    (hday : localDay ts.instant tz + 2 ≤ localDay now.instant tz) :
    format_timestamp ts now tz =
      some (twoDigit (monthOf (localDay ts.instant tz)) ++ "/" ++
            toString (dayOf (localDay ts.instant tz)) ++ "/" ++
            toString (yearOf (localDay ts.instant tz))) :=
  format_timestamp_date_branch ts now tz hts hnow (by omega) (by omega)

/-- C3 witness: 1969-12-29 00:00 UTC against `now` = 1970-01-01 00:00 UTC,
local timezone UTC (three calendar days earlier). -/
theorem format_timestamp_older_date_witness :
    format_timestamp ⟨-259200, 0⟩ ⟨0, 0⟩ 0 =
      some (twoDigit (monthOf (localDay (-259200) 0)) ++ "/" ++
            toString (dayOf (localDay (-259200) 0)) ++ "/" ++
            toString (yearOf (localDay (-259200) 0))) :=
  format_timestamp_older_date ⟨-259200, 0⟩ ⟨0, 0⟩ 0 (by decide) (by decide)
    (by decide)

/-- C8: a timestamp at 14:05 local time on the same local calendar day as
`now` renders as exactly `02:05pm`. -/
theorem format_timestamp_1405 (ts now : OffsetDateTime) (tz : Int)
    (hts : dateInRange (localDay ts.instant tz))
    (hnow : dateInRange (localDay now.instant tz))
    (hday : localDay ts.instant tz = localDay now.instant tz)
    (hhour : hourOf ts.instant tz = 14)
    (hmin : minuteOf ts.instant tz = 5) :
    format_timestamp ts now tz = some ("02:05pm") := by
  rw [format_timestamp_reduce ts now tz hts hnow, if_pos hday, hhour, hmin]
  decide

/-- C8 witness: 1970-01-01 14:05 UTC against `now` = 1970-01-01 00:00 UTC,
local timezone UTC. -/
theorem format_timestamp_1405_witness :
    format_timestamp ⟨50700, 0⟩ ⟨0, 0⟩ 0 = some ("02:05pm") :=
  format_timestamp_1405 ⟨50700, 0⟩ ⟨0, 0⟩ 0 (by decide) (by decide) (by decide)
    (by decide) (by decide)

/-- C9: a timestamp whose local calendar date is strictly after `now`'s
(tomorrow included) falls through to the date branch: month, `/`, day, `/`,
year — never a bare clock time and never the `yesterday at` form. -/
theorem format_timestamp_future_date (ts now : OffsetDateTime) (tz : Int)
    (hts : dateInRange (localDay ts.instant tz))
    (hnow : dateInRange (localDay now.instant tz))
    (hday : localDay now.instant tz < localDay ts.instant tz) :
    format_timestamp ts now tz =
      some (twoDigit (monthOf (localDay ts.instant tz)) ++ "/" ++
            toString (dayOf (localDay ts.instant tz)) ++ "/" ++
            toString (yearOf (localDay ts.instant tz))) :=
  format_timestamp_date_branch ts now tz hts hnow (by omega) (by omega)

/-- C9 witness: 1970-01-03 00:00 UTC against `now` = 1970-01-01 00:00 UTC,
local timezone UTC (two days in the future). -/
theorem format_timestamp_future_date_witness :
    format_timestamp ⟨172800, 0⟩ ⟨0, 0⟩ 0 =
      some (twoDigit (monthOf (localDay 172800 0)) ++ "/" ++
            toString (dayOf (localDay 172800 0)) ++ "/" ++
            toString (yearOf (localDay 172800 0))) :=
  format_timestamp_future_date ⟨172800, 0⟩ ⟨0, 0⟩ 0 (by decide) (by decide)
    (by decide)

/-- C7 (amended): `format_timestamp` is pure and deterministic by
construction, and it terminates with a string whenever both conversions to
the local timezone stay inside the supported date range; the claim's "no
error path is reachable" fails outside that range, where
`OffsetDateTime::to_offset` panics (see the counterexample). -/
theorem format_timestamp_total_in_range (ts now : OffsetDateTime) (tz : Int)
    (hts : dateInRange (localDay ts.instant tz))
    (hnow : dateInRange (localDay now.instant tz)) :
    ∃ s : String, format_timestamp ts now tz = some s :=
  ⟨_, format_timestamp_reduce ts now tz hts hnow⟩

/-- C7 witness: both datetimes at the Unix epoch, local timezone UTC. -/
theorem format_timestamp_total_in_range_witness :
    ∃ s : String, format_timestamp ⟨0, 0⟩ ⟨0, 0⟩ 0 = some s :=
  format_timestamp_total_in_range ⟨0, 0⟩ ⟨0, 0⟩ 0 (by decide) (by decide)

/-- C7 counterexample: the timestamp 9999-12-31 23:59:59 UTC is a valid
`OffsetDateTime` (as is `now` = epoch), yet converting it to the +01:00
offset lands on year 10000, outside the supported range, so
`OffsetDateTime::to_offset` panics — modelled as `none`.  An error path is
therefore reachable. -/
theorem format_timestamp_out_of_range :
    dateInRange (localDay (MAX_DAY * 86400 + 86399) 0) ∧
    dateInRange (localDay 0 0) ∧
    format_timestamp ⟨MAX_DAY * 86400 + 86399, 0⟩ ⟨0, 0⟩ 3600 = none := by
  decide

/-- C4: with no current room, none of the three toggle actions reports
telemetry, dispatches a room operation, or detaches a task, and the
active-call state is returned unchanged. -/
theorem toggle_actions_no_room (call : ActiveCall) (h : call.room = none) :
    toggle_screen_sharing call = (call, noEffects) ∧
    toggle_mute call = (call, noEffects) ∧
    toggle_deafen call = (call, noEffects) := by
  unfold toggle_screen_sharing toggle_mute toggle_deafen
  rw [h]
  exact ⟨rfl, rfl, rfl⟩

/-- C4 witness: the empty active-call registry. -/
theorem toggle_actions_no_room_witness :
    toggle_screen_sharing ⟨none⟩ = (⟨none⟩, noEffects) ∧
    toggle_mute ⟨none⟩ = (⟨none⟩, noEffects) ∧
    toggle_deafen ⟨none⟩ = (⟨none⟩, noEffects) :=
  toggle_actions_no_room ⟨none⟩ rfl

/-- C5: with a current room, `toggle_screen_sharing` reports exactly one
telemetry event and dispatches exactly one room operation: when the room is
screen sharing, `disable screen share` and `unshare_screen`; otherwise
`enable screen share` and `share_screen` — in both cases detaching one
task and leaving the registry unchanged. -/
theorem toggle_screen_sharing_dispatch (call : ActiveCall) (room : Room)
    (h : call.room = some room) :
    toggle_screen_sharing call =
      (call, if room.is_screen_sharing then
          ⟨[⟨"disable screen share", room.id, room.channel_id⟩],
            [RoomOp.unshare_screen], 1⟩
        else
          ⟨[⟨"enable screen share", room.id, room.channel_id⟩],
            [RoomOp.share_screen], 1⟩) := by
  unfold toggle_screen_sharing
  rw [h]
  by_cases hs : room.is_screen_sharing <;> simp [hs]

/-- C5 witness: a room with id 1, channel 2, currently screen sharing. -/
theorem toggle_screen_sharing_dispatch_witness :
    toggle_screen_sharing ⟨some ⟨1, some 2, true, false⟩⟩ =
      (⟨some ⟨1, some 2, true, false⟩⟩,
        if (⟨1, some 2, true, false⟩ : Room).is_screen_sharing then
          ⟨[⟨"disable screen share", 1, some 2⟩], [RoomOp.unshare_screen], 1⟩
        else
          ⟨[⟨"enable screen share", 1, some 2⟩], [RoomOp.share_screen], 1⟩) :=
  toggle_screen_sharing_dispatch ⟨some ⟨1, some 2, true, false⟩⟩
    ⟨1, some 2, true, false⟩ rfl

/-- C6: for every screen and window size, `notification_window_options`
returns fixed bounds whose rectangle has exactly the requested size and
whose origin is the screen content bounds' upper-right corner displaced by
`(-16 - size.x, 16)`: 16 pixels of padding on the right and on the top. -/
theorem notification_window_options_anchor (screen : Screen)
    (window_size : Vector2F) :
    ∃ r : RectF,
      (notification_window_options screen window_size).bounds =
        WindowBounds.Fixed r ∧
      r.size = window_size ∧
      r.origin = screen.content_bounds.upper_right +
        vec2f (-16 - window_size.x) 16 ∧
      r.origin.x + window_size.x + 16 =
        screen.content_bounds.upper_right.x ∧
      r.origin.y = screen.content_bounds.upper_right.y + 16 := by
  refine ⟨_, rfl, rfl, rfl, ?_, ?_⟩
  · show screen.content_bounds.upper_right.x + (-16 - window_size.x) +
      window_size.x + 16 = screen.content_bounds.upper_right.x
    ring
  · show screen.content_bounds.upper_right.y + 16 =
      screen.content_bounds.upper_right.y + 16
    rfl

/-- C10: `is_channels_feature_enabled` holds exactly when the user is staff
or holds the `ChannelsAlpha` feature flag. -/
theorem is_channels_feature_enabled_iff (cx : WindowContext) :
    is_channels_feature_enabled cx = true ↔
      (cx.is_staff = true ∨ cx.has_flag FeatureFlag.ChannelsAlpha = true) := by
  simp [is_channels_feature_enabled]
